import Mathlib

/-!
Verification of the checkpoint subsystem (`src/checkpoints.cpp`).

Shallow embedding conventions:
* `uint256` block hashes are modelled as `Nat` (the 256-bit value).
* `std::map<int, uint256>` is modelled as an association list in ascending
  key order, which is exactly the iteration order of `std::map`; the
  compiled-in tables below are transcribed in source order, which is
  already strictly ascending.
* `double` arithmetic is modelled over `ℚ` (exact real-valued semantics);
  the final division `fWorkBefore / (fWorkBefore + fWorkAfter)` is
  modelled as `Option ℚ`, with `none` when the denominator is zero,
  since IEEE division by zero produces no real number (NaN or ±∞).
* The global flag `fEnabled` is passed explicitly as the first argument
  of every operation that the C++ code defines; a function whose body
  never reads the global simply ignores the argument.
* `CBlockIndex*` references are `Option CBlockIndex`; the block-index
  directory `std::map<uint256, CBlockIndex*>` is an association list
  keyed by hash.
-/

namespace Checkpoints

/-- `static const double SIGCHECK_VERIFICATION_FACTOR = 5.0;` -/
def SIGCHECK_VERIFICATION_FACTOR : ℚ := 5

/-- The fields of `CBlockIndex` read by this subsystem:
`nChainTx` (cumulative transaction count) and `nTime` (block timestamp). -/
structure CBlockIndex where
  nChainTx : Nat
  nTime : Nat
deriving DecidableEq

/-- `typedef std::map<int, uint256> MapCheckpoints;` as an association
list in ascending key order. -/
abbrev MapCheckpoints := List (Int × Nat)

/-- `struct CCheckpointData` (the pointer to the map is flattened into
the list itself). -/
structure CCheckpointData where
  mapCheckpoints : MapCheckpoints
  nTimeLastCheckpoint : Int
  nTransactionsLastCheckpoint : Int
  fTransactionsPerDay : ℚ
deriving DecidableEq

/-- `static MapCheckpoints mapCheckpoints = ...` (Main network). -/
def mapCheckpoints : MapCheckpoints :=
  [ (0, 0x00000f639db5734b2b861ef8dbccc33aebd7de44d13de000a12d093bcc866c64),
    (6143, 0x0000000026fb51f5bc9943ed69d9ff7697ecf7fed419d88b417655f93a487ce1),
    (12797, 0x000000002c29644e179baa188fa6b9b9454721f1f21f2b9f31eebe9acc1a31db),
    (30092, 0x0000000098a23e1c503f71a6d61c333c5abaabb4c5fa1b474012e004db4bfbbe),
    (80998, 0x000000010ebcfe9a00a99f2b61104f4a141555a707f1c007aba8a978f6030cfb),
    (144759, 0x000000047e7b7bfd63b4f019a0a24c8d65b10afa6eb80721e10fa7c49ce6fb6e),
    (189046, 0x00000000bd507c435b46ee8a13b25b85ec38fdb0eb5b00faeaa0611cd6a483d3),
    (277316, 0x00000016a20503fe496e79d34fb85c33f633059315c046ffa1b4826d08a1e856),
    (483849, 0x000001eb7f8124282ab62296e63d3145ff6c84cf18afae4d4b8e02cd3182b6a8),
    (1066428, 0x000000012dc5256d977b50270d1ca5642726308dcf26b6c219985edb8f2ab8f6) ]

/-- `static const CCheckpointData data = { &mapCheckpoints, 1490629503, 1179921, 960 };` -/
def data : CCheckpointData :=
  { mapCheckpoints := mapCheckpoints
    nTimeLastCheckpoint := 1490629503
    nTransactionsLastCheckpoint := 1179921
    fTransactionsPerDay := 960 }

/-- `static MapCheckpoints mapCheckpointsTestnet = ...` -/
def mapCheckpointsTestnet : MapCheckpoints :=
  [ (0, 0x0000082f5939c2154dbcba35f784530d12e9d72472fcfaf29674ea312cdf4c83) ]

/-- `static const CCheckpointData dataTestnet = { &mapCheckpointsTestnet, 1388868139, 0, 960 };` -/
def dataTestnet : CCheckpointData :=
  { mapCheckpoints := mapCheckpointsTestnet
    nTimeLastCheckpoint := 1388868139
    nTransactionsLastCheckpoint := 0
    fTransactionsPerDay := 960 }

/-- `static MapCheckpoints mapCheckpointsRegtest = ...` -/
def mapCheckpointsRegtest : MapCheckpoints :=
  [ (0, 0x000008ca1832a4baf228eb1553c03d3a2c8e02399550dd6ea8d65cec3ef23d2e) ]

/-- `static const CCheckpointData dataRegtest = { &mapCheckpointsRegtest, 0, 0, 0 };` -/
def dataRegtest : CCheckpointData :=
  { mapCheckpoints := mapCheckpointsRegtest
    nTimeLastCheckpoint := 0
    nTransactionsLastCheckpoint := 0
    fTransactionsPerDay := 0 }

/-- `const CCheckpointData &Checkpoints()` selects the active profile from
`Params().NetworkID()`.  The network-identifier enumeration lives in
`chainparams.h`, which is outside the supplied source; it is modelled
generically as any type with decidable equality carrying the two
distinguished identifiers `TESTNET` and `MAIN` that the selector compares
against.  The selector itself is transcribed from the source:
`if (id == TESTNET) return dataTestnet; else if (id == MAIN) return data;
else return dataRegtest;`. -/
def CheckpointsSelect {α : Type} [DecidableEq α] (TESTNET MAIN : α)
    (networkID : α) : CCheckpointData :=
  if networkID = TESTNET then dataTestnet
  else if networkID = MAIN then data
  else dataRegtest

/-- `bool CheckBlock(int nHeight, const uint256& hash)` against the active
profile `cp`; `fEnabled` is the global flag, read first by the source. -/
def CheckBlock (fEnabled : Bool) (cp : CCheckpointData)
    (nHeight : Int) (hash : Nat) : Bool :=
  if !fEnabled then true
  else
    match cp.mapCheckpoints.find? (fun p => p.1 == nHeight) with
    | none => true
    | some p => hash == p.2

/-- `double GuessVerificationProgress(CBlockIndex *pindex, bool fSigchecks)`.
`nNow` stands for `time(NULL)` and `cp` for the active profile returned by
`Checkpoints()`.  The C++ body never reads the global `fEnabled`; the
argument is the explicit image of that global and is ignored, exactly as
the source ignores it.  The final unguarded division
`fWorkBefore / (fWorkBefore + fWorkAfter)` yields `none` when the
denominator is zero (IEEE NaN or ±∞, no real value). -/
def GuessVerificationProgress (fEnabled : Bool) (cp : CCheckpointData)
    (pindex : Option CBlockIndex) (fSigchecks : Bool) (nNow : Int) : Option ℚ :=
  match pindex with
  | none => some 0
  | some p =>
    let fSigcheckVerificationFactor : ℚ :=
      if fSigchecks then SIGCHECK_VERIFICATION_FACTOR else 1
    if (p.nChainTx : Int) ≤ cp.nTransactionsLastCheckpoint then
      let nCheapBefore : ℚ := (p.nChainTx : ℚ)
      let nCheapAfter : ℚ :=
        ((cp.nTransactionsLastCheckpoint - (p.nChainTx : Int) : Int) : ℚ)
      let nExpensiveAfter : ℚ :=
        ((nNow - cp.nTimeLastCheckpoint : Int) : ℚ) / 86400 * cp.fTransactionsPerDay
      let fWorkBefore : ℚ := nCheapBefore
      let fWorkAfter : ℚ :=
        nCheapAfter + nExpensiveAfter * fSigcheckVerificationFactor
      if fWorkBefore + fWorkAfter = 0 then none
      else some (fWorkBefore / (fWorkBefore + fWorkAfter))
    else
      let nCheapBefore : ℚ := ((cp.nTransactionsLastCheckpoint : Int) : ℚ)
      let nExpensiveBefore : ℚ :=
        (((p.nChainTx : Int) - cp.nTransactionsLastCheckpoint : Int) : ℚ)
      let nExpensiveAfter : ℚ :=
        ((nNow - (p.nTime : Int) : Int) : ℚ) / 86400 * cp.fTransactionsPerDay
      let fWorkBefore : ℚ :=
        nCheapBefore + nExpensiveBefore * fSigcheckVerificationFactor
      let fWorkAfter : ℚ := nExpensiveAfter * fSigcheckVerificationFactor
      if fWorkBefore + fWorkAfter = 0 then none
      else some (fWorkBefore / (fWorkBefore + fWorkAfter))

/-- `int GetTotalBlocksEstimate()`: `checkpoints.rbegin()->first`
dereferences the last element of the ascending-ordered map; `none`
models the undefined dereference on an empty table. -/
def GetTotalBlocksEstimate (fEnabled : Bool) (cp : CCheckpointData) : Option Int :=
  if !fEnabled then some 0
  else (cp.mapCheckpoints.getLast?).map Prod.fst

/-- `mapBlockIndex.find(hash)` on the caller-owned
`std::map<uint256, CBlockIndex*>`, modelled as an association list keyed
by hash. -/
def lookupIndex (mapBlockIndex : List (Nat × CBlockIndex)) (hash : Nat) :
    Option CBlockIndex :=
  (mapBlockIndex.find? (fun q => q.1 == hash)).map Prod.snd

/-- The `BOOST_REVERSE_FOREACH` loop body of `GetLastCheckpoint`: walk the
given entry list in order, return the directory's ref for the first hash
found there. -/
def lastCheckpointScan (mapBlockIndex : List (Nat × CBlockIndex)) :
    MapCheckpoints → Option CBlockIndex
  | [] => none
  | e :: rest =>
    match lookupIndex mapBlockIndex e.2 with
    | some r => some r
    | none => lastCheckpointScan mapBlockIndex rest

/-- `CBlockIndex* GetLastCheckpoint(const std::map<uint256, CBlockIndex*>&)`:
reverse iteration over the ascending-ordered map is a forward scan of the
reversed entry list (descending height). -/
def GetLastCheckpoint (fEnabled : Bool) (cp : CCheckpointData)
    (mapBlockIndex : List (Nat × CBlockIndex)) : Option CBlockIndex :=
  if !fEnabled then none
  else lastCheckpointScan mapBlockIndex cp.mapCheckpoints.reverse

/-- The progress estimate exactly as the specification states it (§4.3):
with `F = 5.0` if `fastMode` else `1.0` and `Tc`, `tc`, `R` the active
profile's last-checkpoint transaction count, time and rate,
Case A (`txCount ≤ Tc`): `workBefore = txCount`,
`workAfter = (Tc - txCount) + (now - tc)/86400 * R * F`;
Case B (`txCount > Tc`): `workBefore = Tc + (txCount - Tc)*F`,
`workAfter = (now - refTime)/86400 * R * F`; result
`workBefore / (workBefore + workAfter)`, `none` standing for a zero
denominator.  Written from the specification's words, to be compared
with `GuessVerificationProgress`, which is transcribed from the source. -/
def progressSpecFormula (cp : CCheckpointData) (p : CBlockIndex)
    (fastMode : Bool) (now : Int) : Option ℚ :=
  let F : ℚ := if fastMode then 5 else 1
  let Tc : ℚ := (cp.nTransactionsLastCheckpoint : ℚ)
  let tc : ℚ := (cp.nTimeLastCheckpoint : ℚ)
  let R : ℚ := cp.fTransactionsPerDay
  let txCount : ℚ := (p.nChainTx : ℚ)
  let refTime : ℚ := (p.nTime : ℚ)
  let workBefore : ℚ :=
    if (p.nChainTx : Int) ≤ cp.nTransactionsLastCheckpoint then txCount
    else Tc + (txCount - Tc) * F
  let workAfter : ℚ :=
    if (p.nChainTx : Int) ≤ cp.nTransactionsLastCheckpoint then
      (Tc - txCount) + ((now : ℚ) - tc) / 86400 * R * F
    else ((now : ℚ) - refTime) / 86400 * R * F
  if workBefore + workAfter = 0 then none
  else some (workBefore / (workBefore + workAfter))

/-- A block-index directory containing exactly the pinned hashes of Main
heights 0 and 12797 (and no higher ones), mapped to two distinguishable
refs; the spec's concrete example for `GetLastCheckpoint`. -/
def exampleBlockIndex : List (Nat × CBlockIndex) :=
  [ (0x00000f639db5734b2b861ef8dbccc33aebd7de44d13de000a12d093bcc866c64, ⟨1, 10⟩),
    (0x000000002c29644e179baa188fa6b9b9454721f1f21f2b9f31eebe9acc1a31db, ⟨500, 20⟩) ]

end Checkpoints

namespace Checkpoints

/-- Two guarded divisions agree when numerators and denominators agree. -/
theorem guardedDiv_congr (a b c d : ℚ) (h1 : a = c) (h2 : b = d) :
    (if b = 0 then (none : Option ℚ) else some (a / b))
      = (if d = 0 then none else some (c / d)) := by
  rw [h1, h2]

/-- C1: with checkpoints enabled, `CheckBlock` accepts every height that is
not pinned in the active table, and at a pinned height accepts exactly the
pinned hash; with checkpoints disabled it accepts everything.  The last two
conjuncts instantiate this on the compiled-in Main table: every pinned pair
passes and every pinned height with a differing hash fails. -/
theorem checkBlock_correct :
    (∀ cp nHeight hash, CheckBlock false cp nHeight hash = true)
    ∧ (∀ cp nHeight hash,
        cp.mapCheckpoints.find? (fun p => p.1 == nHeight) = none →
        CheckBlock true cp nHeight hash = true)
    ∧ (∀ cp nHeight hash hp,
        cp.mapCheckpoints.find? (fun p => p.1 == nHeight) = some hp →
        (CheckBlock true cp nHeight hash = true ↔ hash = hp.2))
    ∧ (∀ p ∈ data.mapCheckpoints, CheckBlock true data p.1 p.2 = true)
    ∧ (∀ p ∈ data.mapCheckpoints, CheckBlock true data p.1 (p.2 + 1) = false) := by
  refine ⟨?_, ?_, ?_, ?_, ?_⟩
  · intro cp nHeight hash
    simp [CheckBlock]
  · intro cp nHeight hash hfind
    simp [CheckBlock, hfind]
  · intro cp nHeight hash hp hfind
    simp [CheckBlock, hfind]
  · decide
  · decide

/-- C1 witness: the general theorem instantiated on the Main table — an
unpinned height is accepted, and at pinned height 0 acceptance is
equivalent to presenting the pinned genesis hash. -/
theorem checkBlock_correct_witness :
    CheckBlock true data 7 123 = true
    ∧ (CheckBlock true data 0 5 = true ↔ (5 : Nat) =
        ((0 : Int),
          0x00000f639db5734b2b861ef8dbccc33aebd7de44d13de000a12d093bcc866c64).2) :=
  ⟨checkBlock_correct.2.1 data 7 123 (by decide),
   checkBlock_correct.2.2.1 data 0 5 _ (by decide)⟩

/-- On a present ref the source function agrees with the spec-side closed
formula; shared backbone for the formula, range and monotonicity facts. -/
theorem gvp_spec_eq
    (fEnabled : Bool) (cp : CCheckpointData) (p : CBlockIndex)
    (fSigchecks : Bool) (nNow : Int) :
    GuessVerificationProgress fEnabled cp (some p) fSigchecks nNow
      = progressSpecFormula cp p fSigchecks nNow := by
  simp only [GuessVerificationProgress, progressSpecFormula,
    SIGCHECK_VERIFICATION_FACTOR]
  by_cases hA : (p.nChainTx : Int) ≤ cp.nTransactionsLastCheckpoint
  · simp only [if_pos hA]
    apply guardedDiv_congr <;> push_cast <;> ring
  · simp only [if_neg hA]
    apply guardedDiv_congr <;> push_cast <;> ring

/-- C2: for every present ref, both fastMode values, every profile, every
flag value and every current time, the source's `GuessVerificationProgress`
computes exactly the specification's Case A / Case B work formulas and
returns `workBefore / (workBefore + workAfter)`. -/
theorem guessVerificationProgress_matches_spec
    (fEnabled : Bool) (cp : CCheckpointData) (p : CBlockIndex)
    (fSigchecks : Bool) (nNow : Int) :
    GuessVerificationProgress fEnabled cp (some p) fSigchecks nNow
      = progressSpecFormula cp p fSigchecks nNow :=
  gvp_spec_eq fEnabled cp p fSigchecks nNow

/-- C7: `GetTotalBlocksEstimate` returns 0 whenever the flag is off, and on
the Main table returns 1066428, which is the greatest height key of that
table. -/
theorem getTotalBlocksEstimate_correct :
    (∀ cp, GetTotalBlocksEstimate false cp = some 0)
    ∧ GetTotalBlocksEstimate true data = some 1066428
    ∧ (data.mapCheckpoints.map Prod.fst).maximum = (1066428 : Int) := by
  refine ⟨fun cp => rfl, by decide, by decide⟩

/-- C8: `GuessVerificationProgress` on an absent ref returns exactly 0, for
both fastMode values, both flag values, every profile and every time. -/
theorem guessVerificationProgress_absent
    (fEnabled : Bool) (cp : CCheckpointData) (fSigchecks : Bool) (nNow : Int) :
    GuessVerificationProgress fEnabled cp none fSigchecks nNow = some 0 := rfl

/-- C9: the network selector is total: it always yields one of the three
compiled-in profiles, and any identifier other than `TESTNET` and `MAIN` —
not only the Regtest identifier — resolves to the Regtest profile. -/
theorem checkpointsSelect_total {α : Type} [DecidableEq α]
    (TESTNET MAIN networkID : α) :
    (CheckpointsSelect TESTNET MAIN networkID = data
      ∨ CheckpointsSelect TESTNET MAIN networkID = dataTestnet
      ∨ CheckpointsSelect TESTNET MAIN networkID = dataRegtest)
    ∧ (networkID ≠ TESTNET → networkID ≠ MAIN →
        CheckpointsSelect TESTNET MAIN networkID = dataRegtest) := by
  constructor
  · by_cases h1 : networkID = TESTNET
    · exact Or.inr (Or.inl (by simp [CheckpointsSelect, h1]))
    · by_cases h2 : networkID = MAIN
      · exact Or.inl (by
          have h3 : ¬MAIN = TESTNET := fun h => h1 (h2.trans h)
          simp [CheckpointsSelect, h1, h2, h3])
      · exact Or.inr (Or.inr (by simp [CheckpointsSelect, h1, h2]))
  · intro h1 h2
    simp [CheckpointsSelect, h1, h2]

/-- C9 witness: over the identifier type `Nat` with `TESTNET = 1` and
`MAIN = 0`, the identifier 7 — neither of the two — selects the Regtest
profile. -/
theorem checkpointsSelect_total_witness :
    CheckpointsSelect (1 : Nat) 0 7 = dataRegtest :=
  (checkpointsSelect_total 1 0 7).2 (by decide) (by decide)

/-- C10: each of the three compiled-in tables is non-empty and pins
height 0, so the enabled path of `GetTotalBlocksEstimate` — which
dereferences the greatest element — is well-defined on all of them. -/
theorem tables_nonempty :
    (data.mapCheckpoints ≠ [] ∧ dataTestnet.mapCheckpoints ≠ []
      ∧ dataRegtest.mapCheckpoints ≠ [])
    ∧ ((data.mapCheckpoints.find? (fun p => p.1 == 0)).isSome = true
      ∧ (dataTestnet.mapCheckpoints.find? (fun p => p.1 == 0)).isSome = true
      ∧ (dataRegtest.mapCheckpoints.find? (fun p => p.1 == 0)).isSome = true)
    ∧ ((GetTotalBlocksEstimate true data).isSome = true
      ∧ (GetTotalBlocksEstimate true dataTestnet).isSome = true
      ∧ (GetTotalBlocksEstimate true dataRegtest).isSome = true) := by
  decide

/-- A defined guarded quotient determines its value and a nonzero
denominator. -/
theorem guard_some_elim (wb wa q : ℚ)
    (hq : (if wb + wa = 0 then (none : Option ℚ) else some (wb / (wb + wa)))
      = some q) :
    q = wb / (wb + wa) ∧ wb + wa ≠ 0 := by
  by_cases hz : wb + wa = 0
  · rw [if_pos hz] at hq
    cases hq
  · rw [if_neg hz] at hq
    exact ⟨(Option.some.inj hq).symm, hz⟩

/-- A defined guarded quotient of nonnegative work amounts lies in the
unit interval. -/
theorem unit_of_guard (wb wa q : ℚ) (hwb : 0 ≤ wb) (hwa : 0 ≤ wa)
    (hq : (if wb + wa = 0 then (none : Option ℚ) else some (wb / (wb + wa)))
      = some q) :
    0 ≤ q ∧ q ≤ 1 := by
  obtain ⟨hq', hz⟩ := guard_some_elim wb wa q hq
  have hd : 0 < wb + wa := lt_of_le_of_ne (by linarith) (Ne.symm hz)
  subst hq'
  exact ⟨div_nonneg hwb hd.le, by rw [div_le_one hd]; linarith⟩

/-- Comparison of two work fractions reduces to a cross product
inequality. -/
theorem frac_le_frac (wb1 wa1 wb2 wa2 : ℚ)
    (hwb1 : 0 ≤ wb1) (hwa1 : 0 ≤ wa1) (hwb2 : 0 ≤ wb2) (hwa2 : 0 ≤ wa2)
    (hd1 : wb1 + wa1 ≠ 0) (hd2 : wb2 + wa2 ≠ 0)
    (hcross : wb1 * wa2 ≤ wb2 * wa1) :
    wb1 / (wb1 + wa1) ≤ wb2 / (wb2 + wa2) := by
  have hd1p : 0 < wb1 + wa1 := lt_of_le_of_ne (by linarith) (Ne.symm hd1)
  have hd2p : 0 < wb2 + wa2 := lt_of_le_of_ne (by linarith) (Ne.symm hd2)
  rw [div_le_div_iff hd1p hd2p]
  nlinarith [hcross]

/-- The projected-work term `a/86400 * R * F` is nonnegative for
nonnegative inputs. -/
theorem scaled_days_nonneg (a R F : ℚ) (ha : 0 ≤ a) (hR : 0 ≤ R)
    (hF : 0 ≤ F) : 0 ≤ a / 86400 * R * F :=
  mul_nonneg (mul_nonneg (div_nonneg ha (by norm_num)) hR) hF

/-- The projected-work term `a/86400 * R * F` is monotone in `a`. -/
theorem scaled_days_mono (a b R F : ℚ) (hab : a ≤ b) (hR : 0 ≤ R)
    (hF : 0 ≤ F) : a / 86400 * R * F ≤ b / 86400 * R * F := by
  have h1 : a / 86400 ≤ b / 86400 := by linarith
  exact mul_le_mul_of_nonneg_right (mul_le_mul_of_nonneg_right h1 hR) hF

/-- C3 counterexample: at the Regtest profile (rate 0) with a present
genesis-like ref carrying zero cumulative transactions, both work amounts
are zero and the unguarded division has no defined value — the code does
not guard the division. -/
theorem gvp_division_unguarded :
    GuessVerificationProgress true dataRegtest (some ⟨0, 0⟩) false 1700000000
      = none := by
  norm_num [GuessVerificationProgress, dataRegtest, SIGCHECK_VERIFICATION_FACTOR]

/-- C3 (amended): whenever the computed result is defined, and under the
sanity conditions that the profile's transaction count and rate are
nonnegative and the current time is not before the checkpoint time nor
before the ref's block time, the result lies in [0,1]; when the
denominator is zero the division is unguarded and the result is
indeterminate (`none`), not a defined conventional value. -/
theorem gvp_in_unit_interval
    (fEnabled : Bool) (cp : CCheckpointData) (p : CBlockIndex)
    (fSigchecks : Bool) (nNow : Int) (q : ℚ)
    (hTc : 0 ≤ cp.nTransactionsLastCheckpoint)
    (hR : 0 ≤ cp.fTransactionsPerDay)
    (htc : cp.nTimeLastCheckpoint ≤ nNow)
    (ht : (p.nTime : Int) ≤ nNow)
    (hq : GuessVerificationProgress fEnabled cp (some p) fSigchecks nNow
      = some q) :
    0 ≤ q ∧ q ≤ 1 := by
  rw [gvp_spec_eq] at hq
  simp only [progressSpecFormula] at hq
  have hF : (0:ℚ) ≤ (if fSigchecks then 5 else 1) := by
    cases fSigchecks <;> norm_num
  have hTcQ : (0:ℚ) ≤ (cp.nTransactionsLastCheckpoint : ℚ) := by
    exact_mod_cast hTc
  have htcQ : (cp.nTimeLastCheckpoint : ℚ) ≤ (nNow : ℚ) := by exact_mod_cast htc
  have htQ : ((p.nTime : ℚ)) ≤ (nNow : ℚ) := by exact_mod_cast ht
  by_cases hA : (p.nChainTx : Int) ≤ cp.nTransactionsLastCheckpoint
  · simp only [if_pos hA] at hq
    have htxQ : ((p.nChainTx : ℚ)) ≤ (cp.nTransactionsLastCheckpoint : ℚ) := by
      exact_mod_cast hA
    refine unit_of_guard _ _ q ?_ ?_ hq
    · positivity
    · have h1 : (0:ℚ) ≤ (cp.nTransactionsLastCheckpoint : ℚ) - (p.nChainTx : ℚ) := by
        linarith
      have h2 := scaled_days_nonneg ((nNow : ℚ) - (cp.nTimeLastCheckpoint : ℚ))
        cp.fTransactionsPerDay (if fSigchecks then 5 else 1)
        (by linarith) hR hF
      linarith
  · simp only [if_neg hA] at hq
    have htxQ : (cp.nTransactionsLastCheckpoint : ℚ) ≤ ((p.nChainTx : ℚ)) := by
      exact_mod_cast (lt_of_not_le hA).le
    refine unit_of_guard _ _ q ?_ ?_ hq
    · have h1 : (0:ℚ) ≤ ((p.nChainTx : ℚ) - (cp.nTransactionsLastCheckpoint : ℚ))
          * (if fSigchecks then 5 else 1) :=
        mul_nonneg (by linarith) hF
      linarith
    · exact scaled_days_nonneg _ _ _ (by linarith) hR hF

/-- C3 amended witness: on the Main profile one day after the last
checkpoint, at a ref sitting exactly at the checkpoint, the returned
estimate 1179921/1180881 lies in [0,1]. -/
theorem gvp_in_unit_interval_witness :
    0 ≤ (1179921 / 1180881 : ℚ) ∧ (1179921 / 1180881 : ℚ) ≤ 1 :=
  gvp_in_unit_interval true data ⟨1179921, 1490629503⟩ false
    (1490629503 + 86400) (1179921 / 1180881)
    (by decide) (by norm_num [data]) (by decide) (by decide)
    (by norm_num [GuessVerificationProgress, data, SIGCHECK_VERIFICATION_FACTOR])

/-- C5 counterexample: on the Main profile (rate 960 > 0), with `now`
fixed at the checkpoint time and the ref's block time fixed at 0,
raising the cumulative transaction count from 1179921 (exactly the
checkpoint count, progress 1) to 1179922 strictly decreases the
estimate — progress is not non-decreasing in the transaction count. -/
theorem gvp_not_monotone_counterexample :
    GuessVerificationProgress true data (some ⟨1179921, 0⟩) false 1490629503
      = some 1
    ∧ GuessVerificationProgress true data (some ⟨1179922, 0⟩) false 1490629503
      = some (106192980 / 1596822483)
    ∧ (106192980 / 1596822483 : ℚ) < 1 := by
  refine ⟨?_, ?_, by norm_num⟩ <;>
    norm_num [GuessVerificationProgress, data, SIGCHECK_VERIFICATION_FACTOR]

set_option maxHeartbeats 1000000 in
/-- C5 (amended): with the current time held fixed, a profile with
nonnegative transaction count and rate R > 0, and the ref's block time
held fixed between the profile's checkpoint time and the current time,
the defined values of `GuessVerificationProgress` are non-decreasing in
the ref's cumulative transaction count. -/
theorem gvp_monotone_in_txCount
    (cp : CCheckpointData) (fSigchecks : Bool) (nNow : Int)
    (t tx1 tx2 : Nat) (p1 p2 : ℚ)
    (hTc : 0 ≤ cp.nTransactionsLastCheckpoint)
    (hR : 0 < cp.fTransactionsPerDay)
    (htc : cp.nTimeLastCheckpoint ≤ (t : Int))
    (hnow : (t : Int) ≤ nNow)
    (htx : tx1 ≤ tx2)
    (h1 : GuessVerificationProgress true cp (some ⟨tx1, t⟩) fSigchecks nNow
      = some p1)
    (h2 : GuessVerificationProgress true cp (some ⟨tx2, t⟩) fSigchecks nNow
      = some p2) :
    p1 ≤ p2 := by
  rw [gvp_spec_eq] at h1 h2
  simp only [progressSpecFormula] at h1 h2
  have hF : (0:ℚ) ≤ (if fSigchecks then 5 else 1) := by
    cases fSigchecks <;> norm_num
  have hF1 : (1:ℚ) ≤ (if fSigchecks then 5 else 1) := by
    cases fSigchecks <;> norm_num
  have hTcQ : (0:ℚ) ≤ (cp.nTransactionsLastCheckpoint : ℚ) := by
    exact_mod_cast hTc
  have htcQ : (cp.nTimeLastCheckpoint : ℚ) ≤ (t : ℚ) := by exact_mod_cast htc
  have hnowQ : ((t : ℚ)) ≤ (nNow : ℚ) := by exact_mod_cast hnow
  have htxQ : ((tx1 : ℚ)) ≤ (tx2 : ℚ) := by exact_mod_cast htx
  have htx1 : (0:ℚ) ≤ (tx1 : ℚ) := by positivity
  have htx2 : (0:ℚ) ≤ (tx2 : ℚ) := by positivity
  have hX : (0:ℚ) ≤ ((nNow : ℚ) - (cp.nTimeLastCheckpoint : ℚ)) / 86400
      * cp.fTransactionsPerDay * (if fSigchecks then 5 else 1) :=
    scaled_days_nonneg _ _ _ (by linarith) hR.le hF
  have hW : (0:ℚ) ≤ ((nNow : ℚ) - (t : ℚ)) / 86400
      * cp.fTransactionsPerDay * (if fSigchecks then 5 else 1) :=
    scaled_days_nonneg _ _ _ (by linarith) hR.le hF
  have hWX : ((nNow : ℚ) - (t : ℚ)) / 86400
        * cp.fTransactionsPerDay * (if fSigchecks then 5 else 1)
      ≤ ((nNow : ℚ) - (cp.nTimeLastCheckpoint : ℚ)) / 86400
        * cp.fTransactionsPerDay * (if fSigchecks then 5 else 1) :=
    scaled_days_mono _ _ _ _ (by linarith) hR.le hF
  by_cases hA1 : (tx1 : Int) ≤ cp.nTransactionsLastCheckpoint
  · have htx1TcQ : ((tx1 : ℚ)) ≤ (cp.nTransactionsLastCheckpoint : ℚ) := by
      exact_mod_cast hA1
    simp only [if_pos hA1] at h1
    obtain ⟨hq1, hd1⟩ := guard_some_elim _ _ _ h1
    by_cases hA2 : (tx2 : Int) ≤ cp.nTransactionsLastCheckpoint
    · -- Case A / Case A: both refs predate the checkpoint count.
      have htx2TcQ : ((tx2 : ℚ)) ≤ (cp.nTransactionsLastCheckpoint : ℚ) := by
        exact_mod_cast hA2
      simp only [if_pos hA2] at h2
      obtain ⟨hq2, hd2⟩ := guard_some_elim _ _ _ h2
      rw [hq1, hq2]
      refine frac_le_frac _ _ _ _ htx1 (by linarith) htx2 (by linarith) hd1 hd2 ?_
      linarith [mul_le_mul_of_nonneg_right htxQ hTcQ,
        mul_le_mul_of_nonneg_right htxQ hX]
    · -- Case A / Case B: the second ref has passed the checkpoint count.
      have htx2TcQ : (cp.nTransactionsLastCheckpoint : ℚ) ≤ ((tx2 : ℚ)) := by
        exact_mod_cast (lt_of_not_le hA2).le
      simp only [if_neg hA2] at h2
      obtain ⟨hq2, hd2⟩ := guard_some_elim _ _ _ h2
      rw [hq1, hq2]
      have hwb2 : (cp.nTransactionsLastCheckpoint : ℚ)
          ≤ (cp.nTransactionsLastCheckpoint : ℚ)
            + ((tx2 : ℚ) - (cp.nTransactionsLastCheckpoint : ℚ))
              * (if fSigchecks then 5 else 1) := by
        linarith [mul_nonneg (sub_nonneg.mpr htx2TcQ) hF]
      refine frac_le_frac _ _ _ _ htx1 (by linarith) (by linarith)
        hW hd1 hd2 ?_
      have hcross1 : (tx1 : ℚ) * (((nNow : ℚ) - (t : ℚ)) / 86400
            * cp.fTransactionsPerDay * (if fSigchecks then 5 else 1))
          ≤ ((cp.nTransactionsLastCheckpoint : ℚ)
              + ((tx2 : ℚ) - (cp.nTransactionsLastCheckpoint : ℚ))
                * (if fSigchecks then 5 else 1))
            * (((nNow : ℚ) - (cp.nTimeLastCheckpoint : ℚ)) / 86400
              * cp.fTransactionsPerDay * (if fSigchecks then 5 else 1)) :=
        mul_le_mul (by linarith) hWX hW (by linarith)
      linarith [hcross1, mul_nonneg (show (0:ℚ) ≤ (cp.nTransactionsLastCheckpoint : ℚ)
          + ((tx2 : ℚ) - (cp.nTransactionsLastCheckpoint : ℚ))
            * (if fSigchecks then 5 else 1) by linarith)
        (sub_nonneg.mpr htx1TcQ)]
  · -- Case B / Case B: both refs are past the checkpoint count.
    have hA2 : ¬((tx2 : Int) ≤ cp.nTransactionsLastCheckpoint) := by
      intro h
      exact hA1 (le_trans (by exact_mod_cast htx) h)
    have htx1TcQ : (cp.nTransactionsLastCheckpoint : ℚ) ≤ ((tx1 : ℚ)) := by
      exact_mod_cast (lt_of_not_le hA1).le
    simp only [if_neg hA1] at h1
    simp only [if_neg hA2] at h2
    obtain ⟨hq1, hd1⟩ := guard_some_elim _ _ _ h1
    obtain ⟨hq2, hd2⟩ := guard_some_elim _ _ _ h2
    rw [hq1, hq2]
    have hwb1 : (0:ℚ) ≤ (cp.nTransactionsLastCheckpoint : ℚ)
        + ((tx1 : ℚ) - (cp.nTransactionsLastCheckpoint : ℚ))
          * (if fSigchecks then 5 else 1) := by
      linarith [mul_nonneg (sub_nonneg.mpr htx1TcQ) hF]
    have hwb12 : (cp.nTransactionsLastCheckpoint : ℚ)
        + ((tx1 : ℚ) - (cp.nTransactionsLastCheckpoint : ℚ))
          * (if fSigchecks then 5 else 1)
        ≤ (cp.nTransactionsLastCheckpoint : ℚ)
        + ((tx2 : ℚ) - (cp.nTransactionsLastCheckpoint : ℚ))
          * (if fSigchecks then 5 else 1) := by
      linarith [mul_le_mul_of_nonneg_right (sub_le_sub_right htxQ
        ((cp.nTransactionsLastCheckpoint : ℚ))) hF]
    refine frac_le_frac _ _ _ _ hwb1 hW (by linarith) hW hd1 hd2 ?_
    exact mul_le_mul_of_nonneg_right hwb12 hW

/-- C5 amended witness: on the Main profile one day after the checkpoint,
two refs at the checkpoint time with 1000 and 2000 cumulative
transactions give estimates 1000/1180881 ≤ 2000/1180881. -/
theorem gvp_monotone_in_txCount_witness :
    (1000 / 1180881 : ℚ) ≤ (2000 / 1180881 : ℚ) :=
  gvp_monotone_in_txCount data false (1490629503 + 86400) 1490629503 1000 2000
    (1000 / 1180881) (2000 / 1180881)
    (by decide) (by norm_num [data]) (by decide) (by decide) (by decide)
    (by norm_num [GuessVerificationProgress, data, SIGCHECK_VERIFICATION_FACTOR])
    (by norm_num [GuessVerificationProgress, data, SIGCHECK_VERIFICATION_FACTOR])

/-- The descending scan returns `none` when no scanned hash is in the
directory. -/
theorem lastCheckpointScan_eq_none (dir : List (Nat × CBlockIndex)) :
    ∀ l : MapCheckpoints, (∀ p ∈ l, lookupIndex dir p.2 = none) →
    lastCheckpointScan dir l = none
  | [], _ => rfl
  | e :: rest, h => by
    have he := h e (List.mem_cons_self e rest)
    simp only [lastCheckpointScan, he]
    exact lastCheckpointScan_eq_none dir rest
      (fun p hp => h p (List.mem_cons_of_mem e hp))

/-- On a list whose heights strictly decrease in scan order, the scan
returns the directory's ref for the hash of the greatest height present
in the directory. -/
theorem lastCheckpointScan_finds_highest (dir : List (Nat × CBlockIndex))
    (l : MapCheckpoints) (h : Int) (x : Nat) (r : CBlockIndex)
    (hsort : List.Pairwise (fun a b => b.1 < a.1) l)
    (hmem : (h, x) ∈ l) (hfound : lookupIndex dir x = some r)
    (habsent : ∀ p ∈ l, h < p.1 → lookupIndex dir p.2 = none) :
    lastCheckpointScan dir l = some r := by
  induction l with
  | nil => cases hmem
  | cons e rest ih =>
    rcases List.mem_cons.mp hmem with he | hrest
    · rw [← he] at hsort ⊢
      simp only [lastCheckpointScan, hfound]
    · have hlt : h < e.1 := (List.pairwise_cons.mp hsort).1 (h, x) hrest
      simp only [lastCheckpointScan, habsent e (List.mem_cons_self e rest) hlt]
      exact ih (List.pairwise_cons.mp hsort).2 hrest
        (fun p hp hhp => habsent p (List.mem_cons_of_mem e hp) hhp)

/-- C4: `GetLastCheckpoint` returns absent when disabled; when enabled it
returns absent if no pinned hash is in the directory, and otherwise — for
a table whose heights strictly increase in table order, as all compiled-in
tables do — the directory's ref for the pinned hash of the greatest height
present, because the scan walks the table in strictly descending height
order; on a directory holding exactly the Main hashes of heights 0 and
12797 it returns the height-12797 entry. -/
theorem getLastCheckpoint_correct :
    (∀ cp dir, GetLastCheckpoint false cp dir = none)
    ∧ (∀ (cp : CCheckpointData) dir,
        (∀ p ∈ cp.mapCheckpoints, lookupIndex dir p.2 = none) →
        GetLastCheckpoint true cp dir = none)
    ∧ (∀ (cp : CCheckpointData) dir (h : Int) (x : Nat) (r : CBlockIndex),
        List.Pairwise (fun a b => a.1 < b.1) cp.mapCheckpoints →
        (h, x) ∈ cp.mapCheckpoints →
        lookupIndex dir x = some r →
        (∀ p ∈ cp.mapCheckpoints, h < p.1 → lookupIndex dir p.2 = none) →
        GetLastCheckpoint true cp dir = some r)
    ∧ GetLastCheckpoint true data exampleBlockIndex = some ⟨500, 20⟩ := by
  refine ⟨fun cp dir => rfl, ?_, ?_, by decide⟩
  · intro cp dir habsent
    simp only [GetLastCheckpoint, Bool.not_true, Bool.false_eq_true, if_false]
    exact lastCheckpointScan_eq_none dir _
      (fun p hp => habsent p (List.mem_reverse.mp hp))
  · intro cp dir h x r hsort hmem hfound habsent
    simp only [GetLastCheckpoint, Bool.not_true, Bool.false_eq_true, if_false]
    exact lastCheckpointScan_finds_highest dir _ h x r
      (List.pairwise_reverse.mpr hsort) (List.mem_reverse.mpr hmem) hfound
      (fun p hp hhp => habsent p (List.mem_reverse.mp hp) hhp)

/-- C4 witness: the general highest-match theorem applied to the Main
table and the two-entry directory pinning heights 0 and 12797 yields the
height-12797 ref. -/
theorem getLastCheckpoint_correct_witness :
    GetLastCheckpoint true data exampleBlockIndex = some ⟨500, 20⟩ :=
  getLastCheckpoint_correct.2.2.1 data exampleBlockIndex 12797
    0x000000002c29644e179baa188fa6b9b9454721f1f21f2b9f31eebe9acc1a31db
    ⟨500, 20⟩ (by decide) (by decide) (by decide) (by decide)

/-- C6 counterexample: with `Enabled = false`, `GuessVerificationProgress`
does not fall back to any permissive default — it still computes the full
ref-dependent estimate, returning 1179921/1180881 (neither 0 nor 1) for
one present ref and 0 for another. -/
theorem gvp_ignores_enabled_counterexample :
    GuessVerificationProgress false data (some ⟨1179921, 1490629503⟩) false
      (1490629503 + 86400) = some (1179921 / 1180881)
    ∧ GuessVerificationProgress false data (some ⟨0, 1490629503⟩) false
      (1490629503 + 86400) = some 0
    ∧ (1179921 / 1180881 : ℚ) ≠ 0 ∧ (1179921 / 1180881 : ℚ) ≠ 1 := by
  refine ⟨?_, ?_, by norm_num, by norm_num⟩ <;>
    norm_num [GuessVerificationProgress, data, SIGCHECK_VERIFICATION_FACTOR]

/-- C6 (amended): `CheckBlock`, `GetTotalBlocksEstimate` and
`GetLastCheckpoint` consult the Enabled flag first and fall back to the
permissive defaults true, 0 and absent; `GuessVerificationProgress` does
not consult the flag at all — its result is identical for both flag
values. -/
theorem enabled_flag_gating :
    (∀ cp nHeight hash, CheckBlock false cp nHeight hash = true)
    ∧ (∀ cp, GetTotalBlocksEstimate false cp = some 0)
    ∧ (∀ cp dir, GetLastCheckpoint false cp dir = none)
    ∧ (∀ e1 e2 cp pindex fSigchecks nNow,
        GuessVerificationProgress e1 cp pindex fSigchecks nNow
          = GuessVerificationProgress e2 cp pindex fSigchecks nNow) :=
  ⟨fun cp nHeight hash => by simp [CheckBlock],
   fun cp => rfl, fun cp dir => rfl,
   fun e1 e2 cp pindex fSigchecks nNow => rfl⟩

end Checkpoints
